import Mathlib

/-!
Shallow embedding of `src/elevation_finder.py` (USGS elevation finder).

The HTTP world is modelled by an environment `env : Nat → Outcome` giving the
outcome of each attempt of the retry loop of `get_elevation_usgs`; for the
batch loop, `benv : Nat → Nat → Outcome` gives the environment seen by each
point. Coordinates and elevations are rationals. Each operation additionally
returns the trace of its observable actions (HTTP requests with their query
parameters, `time.sleep` calls, `st.warning` calls, progress updates), so
that retry, rate-limiting and progress behaviour can be stated.
-/

set_option autoImplicit false

/-- Outcome of one HTTP attempt (`requests.get` plus JSON parsing) in
`get_elevation_usgs`: a parsed response with its status code and optional
numeric `value` field, a `requests.exceptions.Timeout`, or any other
exception (source lines 21, 32, 37). -/
inductive Outcome where
  | response (statusCode : Nat) (value? : Option ℚ)
  | timeout
  | error (msg : String)
deriving DecidableEq

/-- Observable actions of `get_elevation_usgs`: issuing the HTTP GET of
source line 21 (recording the query parameters x, y, wkid, units of the URL
built at line 20), the `time.sleep` calls of lines 34 and 39, and the
`st.warning` of line 41. -/
inductive Event where
  | request (x y : ℚ) (wkid : Nat) (units : String)
  | sleep (t : ℚ)
  | warn (msg : String)
deriving DecidableEq

/-- Body of the retry loop of `get_elevation_usgs` (source lines 18-44). The
list holds the remaining loop indices `attempt` of `range(retry_count)`,
each paired with the outcome the environment gives that attempt:
HTTP 200 with a non-sentinel value returns it; HTTP 200 otherwise returns
`none` without retrying (line 29-30); a non-200 status falls through and the
loop continues with no sleep; `Timeout` sleeps 1 and retries unless this is
the last attempt (lines 32-36); any other exception sleeps 1 and retries
unless this is the last attempt, where it warns and returns `none`
(lines 37-42); an exhausted loop returns `none` (line 44). -/
def fetchLoop (lat lon : ℚ) (retry_count : Nat) :
    List (Nat × Outcome) → Option ℚ × List Event
  | [] => (none, [])
  | (attempt, o) :: rest =>
    let req : Event := Event.request lon lat 4326 "Feet"
    match o with
    | Outcome.response code value? =>
      if code = 200 then
        match value? with
        | some v => if v ≠ -1000000 then (some v, [req]) else (none, [req])
        | none => (none, [req])
      else
        let r := fetchLoop lat lon retry_count rest
        (r.1, req :: r.2)
    | Outcome.timeout =>
      if attempt < retry_count - 1 then
        let r := fetchLoop lat lon retry_count rest
        (r.1, req :: Event.sleep 1 :: r.2)
      else (none, [req])
    | Outcome.error msg =>
      if attempt < retry_count - 1 then
        let r := fetchLoop lat lon retry_count rest
        (r.1, req :: Event.sleep 1 :: r.2)
      else (none, [req, Event.warn msg])

/-- `get_elevation_usgs(lat, lon, retry_count=3)` (source lines 13-44) run
against environment `env`: the returned elevation (or `none`) together with
the trace of observable actions. -/
def get_elevation_usgs (lat lon : ℚ) (env : Nat → Outcome)
    (retry_count : Nat := 3) : Option ℚ × List Event :=
  fetchLoop lat lon retry_count ((List.range retry_count).map (fun a => (a, env a)))

/-- A Python value that can appear in a result cell: a float, a string, or
`None`. -/
inductive PyVal where
  | num (v : ℚ)
  | str (s : String)
  | none
deriving DecidableEq

/-- One row of the result table built at source lines 62-68. -/
structure ResultRow where
  point_id : String
  latitude : ℚ
  longitude : ℚ
  elevation_ft : PyVal
  status : String
deriving DecidableEq

/-- The dict literal of source lines 62-68 together with the point-id choice
of line 57 (`point_ids[i] if point_ids else f"Point_{i+1}"`; an empty
`point_ids` list is falsy in Python, hence the `isEmpty` test). -/
def mkRow (point_ids : List String) (i : Nat) (lat lon : ℚ)
    (elevation : Option ℚ) : ResultRow :=
  { point_id := if point_ids.isEmpty then "Point_" ++ toString (i+1)
                else point_ids.getD i ("Point_" ++ toString (i+1))
    latitude := lat
    longitude := lon
    elevation_ft := match elevation with
      | some v => PyVal.num v
      | none => PyVal.str "No Data"
    status := match elevation with
      | some _ => "Success"
      | none => "Failed" }

/-- Observable actions of the batch loop of `get_elevation_for_coordinates`:
actions from inside `get_elevation_usgs`, the progress-bar update of source
line 71, and the rate-limit sleep of line 75. -/
inductive BEvent where
  | fetchAct (e : Event)
  | progress (p : ℚ)
  | sleep (t : ℚ)
deriving DecidableEq

/-- The loop of `get_elevation_for_coordinates` (source lines 56-75): for
each point, in order, call `get_elevation_usgs` (with its default
`retry_count = 3`), append the row of lines 62-68, update the progress bar
to `(i+1)/total` (line 71) and sleep `0.5` unless this is the last point
(lines 74-75). `benv i` is the HTTP environment seen by point `i`. -/
def processPoints (benv : Nat → Nat → Outcome) (total : Nat)
    (point_ids : List String) :
    List (ℚ × ℚ) → Nat → List ResultRow × List BEvent
  | [], _ => ([], [])
  | (lat, lon) :: rest, i =>
    let f := get_elevation_usgs lat lon (benv i)
    let here := f.2.map BEvent.fetchAct
      ++ [BEvent.progress (((i : ℚ) + 1) / (total : ℚ))]
      ++ (if i < total - 1 then [BEvent.sleep (1/2)] else [])
    let r := processPoints benv total point_ids rest (i+1)
    (mkRow point_ids i lat lon f.1 :: r.1, here ++ r.2)

/-- `get_elevation_for_coordinates(coordinates, point_ids)` (source lines
46-81): the rows of the returned DataFrame plus the trace of observable
actions, with `total = len(coordinates)` (line 50). -/
def get_elevation_for_coordinates (coordinates : List (ℚ × ℚ))
    (point_ids : List String) (benv : Nat → Nat → Outcome) :
    List ResultRow × List BEvent :=
  processPoints benv coordinates.length point_ids coordinates 0

/-- `validate_coordinates` (source lines 83-89). -/
def validate_coordinates (lat lon : ℚ) : Bool × String :=
  if ¬ (-90 ≤ lat ∧ lat ≤ 90) then
    (false, "Latitude must be between -90 and 90")
  else if ¬ (-180 ≤ lon ∧ lon ≤ 180) then
    (false, "Longitude must be between -180 and 180")
  else (true, "")

/-- The coordinate-validation loop of `csv_upload_mode` (source lines
284-288): collects `(row number, point id, message)` for every invalid
coordinate. -/
def invalidScan (point_ids : List String) :
    List (ℚ × ℚ) → Nat → List (Nat × String × String)
  | [], _ => []
  | (lat, lon) :: rest, i =>
    let v := validate_coordinates lat lon
    if v.1 then invalidScan point_ids rest (i+1)
    else (i+1, point_ids.getD i "", v.2) :: invalidScan point_ids rest (i+1)

/-- The validate-then-process fragment of `csv_upload_mode` (source lines
283-300): if any coordinate is invalid, the handler reports the errors and
returns before processing (result `none`, empty action trace); otherwise it
runs `get_elevation_for_coordinates` on the whole batch. -/
def csv_process (coordinates : List (ℚ × ℚ)) (point_ids : List String)
    (benv : Nat → Nat → Outcome) : Option (List ResultRow) × List BEvent :=
  if (invalidScan point_ids coordinates 0).isEmpty then
    let r := get_elevation_for_coordinates coordinates point_ids benv
    (some r.1, r.2)
  else (none, [])

/-- Recognises the HTTP-request action. -/
def isRequest : Event → Bool
  | Event.request _ _ _ _ => true
  | _ => false

/-- Number of HTTP requests in a fetch trace. -/
def requestCount (t : List Event) : Nat := (t.filter isRequest).length

/-- Recognises an HTTP request inside a batch trace. -/
def isBRequest : BEvent → Bool
  | BEvent.fetchAct e => isRequest e
  | _ => false

/-- Number of HTTP requests in a batch trace. -/
def brequestCount (t : List BEvent) : Nat := (t.filter isBRequest).length

/-- Recognises the batch loop's own actions (progress updates and the
rate-limit sleeps), as opposed to actions from inside a fetch. -/
def isBatchStep : BEvent → Bool
  | BEvent.fetchAct _ => false
  | _ => true

/-- An HTTP response with a status code other than 200 and no exception. -/
def isNon200 : Outcome → Bool
  | Outcome.response code _ => code != 200
  | _ => false

/-- The value kinds the spec's data model allows in `elevation_feet`:
a float or absent. -/
def isFloatOrAbsent : PyVal → Bool
  | PyVal.num _ => true
  | PyVal.none => true
  | PyVal.str _ => false

/-- Modelled from the spec, section 4.2: the schedule BatchProcessor.process
promises for `total` points, starting at point `i` with `k` points left —
after point `i`, progress `(i+1)/total` is emitted, and a sleep of `0.5`
time units separates consecutive points (none after the last). -/
def specSchedule (total : Nat) : Nat → Nat → List BEvent
  | _, 0 => []
  | i, k+1 =>
    BEvent.progress (((i : ℚ) + 1) / (total : ℚ))
      :: ((if i < total - 1 then [BEvent.sleep (1/2)] else [])
        ++ specSchedule total (i+1) k)

/-- Environment whose first attempt raises a non-timeout exception and whose
later attempts return HTTP 200 with value 100. -/
def envErrThen200 : Nat → Outcome
  | 0 => Outcome.error "boom"
  | _ => Outcome.response 200 (some 100)

/-- Environment in which every attempt times out. -/
def envTimeout : Nat → Outcome := fun _ => Outcome.timeout

/-! ## Supporting lemmas -/

lemma fetchLoop_request_mem (lat lon : ℚ) (rc : Nat) (x y : ℚ) (w : Nat)
    (u : String) :
    ∀ l : List (Nat × Outcome), Event.request x y w u ∈ (fetchLoop lat lon rc l).2 →
      x = lon ∧ y = lat ∧ w = 4326 ∧ u = "Feet" := by
  intro l
  induction l with
  | nil => intro h; simp [fetchLoop] at h
  | cons p rest ih =>
    obtain ⟨a, o⟩ := p
    intro h
    cases o with
    | response code value? =>
      by_cases hc : code = 200
      · cases value? with
        | some v =>
          by_cases hv : v = -1000000 <;>
            simp [fetchLoop, hc, hv, Event.request.injEq] at h <;>
            exact ⟨h.1, h.2.1, h.2.2.1, h.2.2.2⟩
        | none =>
          simp [fetchLoop, hc, Event.request.injEq] at h
          exact ⟨h.1, h.2.1, h.2.2.1, h.2.2.2⟩
      · simp [fetchLoop, hc, Event.request.injEq] at h
        rcases h with h | h
        · exact ⟨h.1, h.2.1, h.2.2.1, h.2.2.2⟩
        · exact ih h
    | timeout =>
      by_cases ha : a < rc - 1 <;>
        simp [fetchLoop, ha, Event.request.injEq] at h
      · rcases h with h | h
        · exact ⟨h.1, h.2.1, h.2.2.1, h.2.2.2⟩
        · exact ih h
      · exact ⟨h.1, h.2.1, h.2.2.1, h.2.2.2⟩
    | error msg =>
      by_cases ha : a < rc - 1 <;>
        simp [fetchLoop, ha, Event.request.injEq] at h
      · rcases h with h | h
        · exact ⟨h.1, h.2.1, h.2.2.1, h.2.2.2⟩
        · exact ih h
      · exact ⟨h.1, h.2.1, h.2.2.1, h.2.2.2⟩

lemma fetchLoop_requestCount_le (lat lon : ℚ) (rc : Nat) :
    ∀ l : List (Nat × Outcome), requestCount (fetchLoop lat lon rc l).2 ≤ l.length := by
  intro l
  induction l with
  | nil => simp [fetchLoop, requestCount]
  | cons p rest ih =>
    obtain ⟨a, o⟩ := p
    cases o with
    | response code value? =>
      by_cases hc : code = 200
      · cases value? with
        | some v =>
          by_cases hv : v = -1000000 <;>
            simp [fetchLoop, hc, hv, requestCount, isRequest]
        | none => simp [fetchLoop, hc, requestCount, isRequest]
      · simp only [fetchLoop, hc, if_false, requestCount, List.filter_cons,
          isRequest, List.length_cons, if_true]
        simpa [requestCount, isRequest] using ih
    | timeout =>
      by_cases ha : a < rc - 1 <;>
        simp [fetchLoop, ha, requestCount, isRequest, List.filter_cons]
      · simpa [requestCount, isRequest] using ih
    | error msg =>
      by_cases ha : a < rc - 1 <;>
        simp [fetchLoop, ha, requestCount, isRequest, List.filter_cons]
      · simpa [requestCount, isRequest] using ih

lemma fetchLoop_non200 (lat lon : ℚ) (rc : Nat) :
    ∀ l : List (Nat × Outcome), (∀ p ∈ l, isNon200 p.2 = true) →
      (fetchLoop lat lon rc l).1 = none ∧
      requestCount (fetchLoop lat lon rc l).2 = l.length ∧
      ∀ t : ℚ, Event.sleep t ∉ (fetchLoop lat lon rc l).2 := by
  intro l
  induction l with
  | nil => intro _; simp [fetchLoop, requestCount]
  | cons p rest ih =>
    obtain ⟨a, o⟩ := p
    intro h
    have hhead : isNon200 o = true := h (a, o) (List.mem_cons_self _ _)
    have htail := ih (fun q hq => h q (List.mem_cons_of_mem _ hq))
    cases o with
    | response code value? =>
      have hc : ¬ code = 200 := by
        simpa [isNon200] using hhead
      refine ⟨?_, ?_, ?_⟩
      · simpa [fetchLoop, hc] using htail.1
      · simp only [fetchLoop, hc, if_false, requestCount, List.filter_cons,
          isRequest, if_true, List.length_cons]
        simpa [requestCount, isRequest] using htail.2.1
      · intro t
        simp only [fetchLoop, hc, if_false, List.mem_cons]
        push_neg
        exact ⟨by simp, htail.2.2 t⟩
    | timeout => simp [isNon200] at hhead
    | error msg => simp [isNon200] at hhead

lemma processPoints_length (benv : Nat → Nat → Outcome) (total : Nat)
    (pids : List String) :
    ∀ (coords : List (ℚ × ℚ)) (i : Nat),
      ((processPoints benv total pids coords i).1).length = coords.length := by
  intro coords
  induction coords with
  | nil => intro i; rfl
  | cons c rest ih =>
    intro i
    obtain ⟨lat, lon⟩ := c
    simp [processPoints, ih]

lemma processPoints_getElem? (benv : Nat → Nat → Outcome) (total : Nat)
    (pids : List String) :
    ∀ (coords : List (ℚ × ℚ)) (i j : Nat),
      ((processPoints benv total pids coords i).1)[j]? =
        (coords[j]?).map
          (fun c => mkRow pids (i+j) c.1 c.2
            (get_elevation_usgs c.1 c.2 (benv (i+j))).1) := by
  intro coords
  induction coords with
  | nil => intro i j; simp [processPoints]
  | cons c rest ih =>
    intro i j
    obtain ⟨lat, lon⟩ := c
    cases j with
    | zero => simp [processPoints]
    | succ j =>
      have hidx : i + (j+1) = (i+1) + j := by omega
      simp only [processPoints, List.getElem?_cons_succ, hidx]
      exact ih (i+1) j

lemma processPoints_mem (benv : Nat → Nat → Outcome) (total : Nat)
    (pids : List String) :
    ∀ (coords : List (ℚ × ℚ)) (i : Nat) (r : ResultRow),
      r ∈ (processPoints benv total pids coords i).1 →
      ∃ j lat lon, r = mkRow pids j lat lon
        (get_elevation_usgs lat lon (benv j)).1 := by
  intro coords
  induction coords with
  | nil => intro i r h; simp [processPoints] at h
  | cons c rest ih =>
    intro i r h
    obtain ⟨lat, lon⟩ := c
    simp only [processPoints, List.mem_cons] at h
    rcases h with heq | hm
    · exact ⟨i, lat, lon, heq⟩
    · exact ih (i+1) r hm

lemma filter_fetchAct_eq_nil :
    ∀ t : List Event, (t.map BEvent.fetchAct).filter isBatchStep = [] := by
  intro t
  induction t with
  | nil => rfl
  | cons e rest ih => simp [isBatchStep, ih]

lemma processPoints_filter_sched (benv : Nat → Nat → Outcome) (total : Nat)
    (pids : List String) :
    ∀ (coords : List (ℚ × ℚ)) (i : Nat),
      ((processPoints benv total pids coords i).2).filter isBatchStep =
        specSchedule total i coords.length := by
  intro coords
  induction coords with
  | nil => intro i; rfl
  | cons c rest ih =>
    intro i
    obtain ⟨lat, lon⟩ := c
    by_cases hi : i < total - 1 <;>
      simp [processPoints, specSchedule, List.filter_append,
        filter_fetchAct_eq_nil, isBatchStep, hi, ih (i+1)]

lemma validate_false_of_bad (lat lon : ℚ)
    (hbad : lat < -90 ∨ 90 < lat ∨ lon < -180 ∨ 180 < lon) :
    (validate_coordinates lat lon).1 = false := by
  unfold validate_coordinates
  split_ifs with h1 h2
  · exfalso
    rcases hbad with h | h | h | h <;> linarith [h1.1, h1.2, h2.1, h2.2]
  · rfl
  · rfl

lemma invalidScan_ne_nil (pids : List String) (lat lon : ℚ)
    (hval : (validate_coordinates lat lon).1 = false) :
    ∀ (coords : List (ℚ × ℚ)) (i : Nat), (lat, lon) ∈ coords →
      invalidScan pids coords i ≠ [] := by
  intro coords
  induction coords with
  | nil => intro i h; simp at h
  | cons c rest ih =>
    intro i hmem
    obtain ⟨la, lo⟩ := c
    rcases List.mem_cons.mp hmem with heq | hm
    · obtain ⟨h1, h2⟩ := Prod.mk.injEq lat lon la lo ▸ heq
      subst h1; subst h2
      simp [invalidScan, hval]
    · by_cases h : (validate_coordinates la lo).1 <;> simp [invalidScan, h]
      · exact ih (i+1) hm

/-! ## Claims -/

/-- Claim C1 is false of the code: on the environment `envErrThen200`, the
first attempt raises a non-timeout exception, yet `get_elevation_usgs` does
not return absent immediately — it performs a second attempt (2 requests in
the trace) and returns its value 100. -/
theorem C1_counterexample :
    (get_elevation_usgs 39 (-105) envErrThen200).1 = some 100 ∧
    requestCount (get_elevation_usgs 39 (-105) envErrThen200).2 = 2 := by
  constructor <;> rfl

/-- Claim C1 (amended): a non-timeout exception is retried exactly like a
timeout. When all 3 attempts raise non-timeout exceptions, the client
performs all 3 attempts, sleeps 1 time unit between consecutive attempts,
emits a warning only on the final attempt, and returns absent. -/
theorem C1_amended_error_retried (lat lon : ℚ) (env : Nat → Outcome)
    (m0 m1 m2 : String) (h0 : env 0 = Outcome.error m0)
    (h1 : env 1 = Outcome.error m1) (h2 : env 2 = Outcome.error m2) :
    get_elevation_usgs lat lon env =
      (none, [Event.request lon lat 4326 "Feet", Event.sleep 1,
              Event.request lon lat 4326 "Feet", Event.sleep 1,
              Event.request lon lat 4326 "Feet", Event.warn m2]) := by
  have hl : (List.range 3).map (fun a => (a, env a)) =
      [(0, env 0), (1, env 1), (2, env 2)] := rfl
  unfold get_elevation_usgs
  rw [hl, h0, h1, h2]
  rfl

/-- Witness for the amended C1 at a concrete environment. -/
theorem C1_amended_error_retried_witness :
    get_elevation_usgs 1 2 (fun _ => Outcome.error "e") =
      (none, [Event.request 2 1 4326 "Feet", Event.sleep 1,
              Event.request 2 1 4326 "Feet", Event.sleep 1,
              Event.request 2 1 4326 "Feet", Event.warn "e"]) :=
  C1_amended_error_retried 1 2 (fun _ => Outcome.error "e") "e" "e" "e"
    rfl rfl rfl

/-- Claim C3: if all 3 attempts time out, `get_elevation_usgs` returns
absent with a sleep of 1 time unit between consecutive attempts (and none
after the last), and the point's result row has status "Failed" and no
elevation value. -/
theorem C3_all_timeouts (lat lon : ℚ) (env : Nat → Outcome)
    (h0 : env 0 = Outcome.timeout) (h1 : env 1 = Outcome.timeout)
    (h2 : env 2 = Outcome.timeout) :
    get_elevation_usgs lat lon env =
      (none, [Event.request lon lat 4326 "Feet", Event.sleep 1,
              Event.request lon lat 4326 "Feet", Event.sleep 1,
              Event.request lon lat 4326 "Feet"]) ∧
    ∀ r ∈ (get_elevation_for_coordinates [(lat, lon)] [] (fun _ => env)).1,
      r.status = "Failed" ∧ ∀ v : ℚ, r.elevation_ft ≠ PyVal.num v := by
  have hl : (List.range 3).map (fun a => (a, env a)) =
      [(0, env 0), (1, env 1), (2, env 2)] := rfl
  have hfetch : get_elevation_usgs lat lon env =
      (none, [Event.request lon lat 4326 "Feet", Event.sleep 1,
              Event.request lon lat 4326 "Feet", Event.sleep 1,
              Event.request lon lat 4326 "Feet"]) := by
    unfold get_elevation_usgs
    rw [hl, h0, h1, h2]
    rfl
  refine ⟨hfetch, ?_⟩
  intro r hr
  have hrows : (get_elevation_for_coordinates [(lat, lon)] []
      (fun _ => env)).1 = [mkRow [] 0 lat lon none] := by
    simp [get_elevation_for_coordinates, processPoints, hfetch]
  rw [hrows] at hr
  rcases List.mem_singleton.mp hr with rfl
  exact ⟨rfl, by intro v hv; simp [mkRow] at hv⟩

/-- Witness for C3 at a concrete environment. -/
theorem C3_all_timeouts_witness :
    get_elevation_usgs 5 6 envTimeout =
      (none, [Event.request 6 5 4326 "Feet", Event.sleep 1,
              Event.request 6 5 4326 "Feet", Event.sleep 1,
              Event.request 6 5 4326 "Feet"]) ∧
    ∀ r ∈ (get_elevation_for_coordinates [(5, 6)] [] (fun _ => envTimeout)).1,
      r.status = "Failed" ∧ ∀ v : ℚ, r.elevation_ft ≠ PyVal.num v :=
  C3_all_timeouts 5 6 envTimeout rfl rfl rfl

/-- Claim C4: an HTTP 200 response carrying the sentinel value -1000000 on
the first attempt makes `get_elevation_usgs` return absent immediately, with
exactly one request in the trace — no retry is attempted. -/
theorem C4_sentinel_no_retry (lat lon : ℚ) (env : Nat → Outcome)
    (h0 : env 0 = Outcome.response 200 (some (-1000000))) :
    get_elevation_usgs lat lon env =
      (none, [Event.request lon lat 4326 "Feet"]) := by
  have hl : (List.range 3).map (fun a => (a, env a)) =
      [(0, env 0), (1, env 1), (2, env 2)] := rfl
  unfold get_elevation_usgs
  rw [hl, h0]
  rfl

/-- Witness for C4 at a concrete environment. -/
theorem C4_sentinel_no_retry_witness :
    get_elevation_usgs 3 4 (fun _ => Outcome.response 200 (some (-1000000))) =
      (none, [Event.request 4 3 4326 "Feet"]) :=
  C4_sentinel_no_retry 3 4 (fun _ => Outcome.response 200 (some (-1000000))) rfl

/-- Claim C2 is false of the code: in a batch whose single point's fetch
fails (every attempt times out), the produced row's `elevation_ft` cell is
the string "No Data" — neither a float nor absent. -/
theorem C2_counterexample :
    ((get_elevation_for_coordinates [(10, 20)] [] (fun _ => envTimeout)).1.all
      (fun r => isFloatOrAbsent r.elevation_ft)) = false := by
  rfl

/-- Claim C2 (amended): every row's `elevation_ft` is either a float or the
placeholder string "No Data" (stored when the fetch returned absent). -/
theorem C2_amended_cells (coordinates : List (ℚ × ℚ)) (point_ids : List String)
    (benv : Nat → Nat → Outcome) (r : ResultRow)
    (hr : r ∈ (get_elevation_for_coordinates coordinates point_ids benv).1) :
    (∃ v : ℚ, r.elevation_ft = PyVal.num v) ∨
      r.elevation_ft = PyVal.str "No Data" := by
  obtain ⟨j, lat, lon, rfl⟩ :=
    processPoints_mem benv coordinates.length point_ids coordinates 0 r hr
  cases hfetch : (get_elevation_usgs lat lon (benv j)).1 with
  | none => right; simp [mkRow, hfetch]
  | some v => left; exact ⟨v, by simp [mkRow, hfetch]⟩

/-- Witness for the amended C2 at a concrete batch. -/
theorem C2_amended_cells_witness :
    (∃ v : ℚ, (mkRow [] 0 10 20 none).elevation_ft = PyVal.num v) ∨
      (mkRow [] 0 10 20 none).elevation_ft = PyVal.str "No Data" :=
  C2_amended_cells [(10, 20)] [] (fun _ => envTimeout)
    (mkRow [] 0 10 20 none) (by decide)

/-- Claim C5: the batch produces exactly one row per input point, in input
order — the row count equals the input count, and the j-th row is the row
built from the j-th coordinate and that point's fetch result. -/
theorem C5_order_preserved (coordinates : List (ℚ × ℚ))
    (point_ids : List String) (benv : Nat → Nat → Outcome) :
    (get_elevation_for_coordinates coordinates point_ids benv).1.length =
      coordinates.length ∧
    ∀ j : Nat, ((get_elevation_for_coordinates coordinates point_ids benv).1)[j]? =
      (coordinates[j]?).map
        (fun c => mkRow point_ids j c.1 c.2
          (get_elevation_usgs c.1 c.2 (benv j)).1) := by
  constructor
  · exact processPoints_length benv coordinates.length point_ids coordinates 0
  · intro j
    simpa using
      processPoints_getElem? benv coordinates.length point_ids coordinates 0 j

/-- Witness for C5 at a concrete batch. -/
theorem C5_order_preserved_witness :
    (get_elevation_for_coordinates [(1, 2), (3, 4)] ["a", "b"]
        (fun _ _ => Outcome.response 200 (some 7))).1.length =
      ([(1, 2), (3, 4)] : List (ℚ × ℚ)).length ∧
    ∀ j : Nat, ((get_elevation_for_coordinates [(1, 2), (3, 4)] ["a", "b"]
        (fun _ _ => Outcome.response 200 (some 7))).1)[j]? =
      ((([(1, 2), (3, 4)] : List (ℚ × ℚ)))[j]?).map
        (fun c => mkRow ["a", "b"] j c.1 c.2
          (get_elevation_usgs c.1 c.2
            ((fun _ _ => Outcome.response 200 (some 7)) j)).1) :=
  C5_order_preserved [(1, 2), (3, 4)] ["a", "b"]
    (fun _ _ => Outcome.response 200 (some 7))

/-- Claim C6: a coordinate with latitude outside [-90, 90] or longitude
outside [-180, 180] is rejected by `validate_coordinates`, and the CSV
handler returns before processing: no row is produced and the trace contains
no HTTP request for any point of the batch. -/
theorem C6_invalid_rejected_before_fetch (coordinates : List (ℚ × ℚ))
    (point_ids : List String) (benv : Nat → Nat → Outcome) (lat lon : ℚ)
    (hmem : (lat, lon) ∈ coordinates)
    (hbad : lat < -90 ∨ 90 < lat ∨ lon < -180 ∨ 180 < lon) :
    (validate_coordinates lat lon).1 = false ∧
    csv_process coordinates point_ids benv = (none, []) ∧
    brequestCount (csv_process coordinates point_ids benv).2 = 0 := by
  have hval := validate_false_of_bad lat lon hbad
  have hne := invalidScan_ne_nil point_ids lat lon hval coordinates 0 hmem
  have hemp : (invalidScan point_ids coordinates 0).isEmpty = false := by
    cases h : invalidScan point_ids coordinates 0 with
    | nil => exact absurd h hne
    | cons a l => rfl
  have hcsv : csv_process coordinates point_ids benv = (none, []) := by
    simp [csv_process, hemp]
  exact ⟨hval, hcsv, by rw [hcsv]; rfl⟩

/-- Witness for C6 at a concrete batch containing an out-of-range latitude. -/
theorem C6_invalid_rejected_before_fetch_witness :
    (validate_coordinates 200 0).1 = false ∧
    csv_process [(200, 0)] ["p"] (fun _ _ => Outcome.timeout) = (none, []) ∧
    brequestCount (csv_process [(200, 0)] ["p"]
      (fun _ _ => Outcome.timeout)).2 = 0 :=
  C6_invalid_rejected_before_fetch [(200, 0)] ["p"] (fun _ _ => Outcome.timeout)
    200 0 (by decide) (by right; left; norm_num)

/-- Claim C7: every HTTP request `get_elevation_usgs` issues carries the
longitude as query parameter x, the latitude as query parameter y, the fixed
spatial reference wkid = 4326, and units = "Feet". -/
theorem C7_request_params (lat lon : ℚ) (env : Nat → Outcome) (x y : ℚ)
    (w : Nat) (u : String)
    (hmem : Event.request x y w u ∈ (get_elevation_usgs lat lon env).2) :
    x = lon ∧ y = lat ∧ w = 4326 ∧ u = "Feet" :=
  fetchLoop_request_mem lat lon 3 x y w u _ hmem

/-- Witness for C7 at a concrete fetch. -/
theorem C7_request_params_witness :
    (2 : ℚ) = 2 ∧ (1 : ℚ) = 1 ∧ (4326 : Nat) = 4326 ∧ "Feet" = "Feet" :=
  C7_request_params 1 2 (fun _ => Outcome.response 200 (some 5)) 2 1 4326
    "Feet" (by decide)

/-- Claim C8: stripped of the actions internal to each fetch, the batch
trace is exactly the spec's schedule — after the i-th of n points the
progress fraction (i+1)/n is emitted, and a sleep of 0.5 time units occurs
between consecutive points but not after the last. -/
theorem C8_progress_and_rate_limit (coordinates : List (ℚ × ℚ))
    (point_ids : List String) (benv : Nat → Nat → Outcome) :
    ((get_elevation_for_coordinates coordinates point_ids benv).2).filter
        isBatchStep =
      specSchedule coordinates.length 0 coordinates.length :=
  processPoints_filter_sched benv coordinates.length point_ids coordinates 0

/-- Witness for C8 at a concrete batch of two points. -/
theorem C8_progress_and_rate_limit_witness :
    ((get_elevation_for_coordinates [(1, 2), (3, 4)] []
        (fun _ _ => Outcome.timeout)).2).filter isBatchStep =
      specSchedule ([(1, 2), (3, 4)] : List (ℚ × ℚ)).length 0
        ([(1, 2), (3, 4)] : List (ℚ × ℚ)).length :=
  C8_progress_and_rate_limit [(1, 2), (3, 4)] [] (fun _ _ => Outcome.timeout)

/-- Claim C9: the j-th row's status is "Success" exactly when the fetch for
the j-th point returned a value (and then `elevation_ft` is that float), and
"Failed" exactly when it returned absent (and then `elevation_ft` is the
placeholder "No Data"); no other status value occurs. -/
theorem C9_status_iff_fetch (coordinates : List (ℚ × ℚ))
    (point_ids : List String) (benv : Nat → Nat → Outcome) (j : Nat)
    (lat lon : ℚ) (hc : coordinates[j]? = some (lat, lon)) :
    ∃ r : ResultRow,
      ((get_elevation_for_coordinates coordinates point_ids benv).1)[j]? =
        some r ∧
      (r.status = "Success" ∨ r.status = "Failed") ∧
      (r.status = "Success" ↔ ∃ v : ℚ,
        (get_elevation_usgs lat lon (benv j)).1 = some v ∧
          r.elevation_ft = PyVal.num v) ∧
      (r.status = "Failed" ↔
        (get_elevation_usgs lat lon (benv j)).1 = none ∧
          r.elevation_ft = PyVal.str "No Data") := by
  have h := processPoints_getElem? benv coordinates.length point_ids
    coordinates 0 j
  rw [hc] at h
  simp only [Nat.zero_add, Option.map_some] at h
  refine ⟨mkRow point_ids j lat lon (get_elevation_usgs lat lon (benv j)).1,
    h, ?_, ?_, ?_⟩ <;>
    rcases hfetch : (get_elevation_usgs lat lon (benv j)).1 with _ | v <;>
    simp [mkRow, hfetch]

/-- Witness for C9 at a concrete batch whose fetch succeeds with value 7. -/
theorem C9_status_iff_fetch_witness :
    ∃ r : ResultRow,
      ((get_elevation_for_coordinates [(1, 2)] ["p"]
          (fun _ _ => Outcome.response 200 (some 7))).1)[0]? = some r ∧
      (r.status = "Success" ∨ r.status = "Failed") ∧
      (r.status = "Success" ↔ ∃ v : ℚ,
        (get_elevation_usgs 1 2
            ((fun _ _ => Outcome.response 200 (some 7)) 0)).1 = some v ∧
          r.elevation_ft = PyVal.num v) ∧
      (r.status = "Failed" ↔
        (get_elevation_usgs 1 2
            ((fun _ _ => Outcome.response 200 (some 7)) 0)).1 = none ∧
          r.elevation_ft = PyVal.str "No Data") :=
  C9_status_iff_fetch [(1, 2)] ["p"]
    (fun _ _ => Outcome.response 200 (some 7)) 0 1 2 rfl

/-- Claim C10: `get_elevation_usgs` performs at most `retry_count` HTTP
attempts for any environment; and when every attempt yields a non-200
response with no exception, each attempt is retried with no sleeping at all,
all `retry_count` attempts are used, and the final result is absent. -/
theorem C10_attempt_bound (lat lon : ℚ) (rc : Nat) (env : Nat → Outcome) :
    requestCount (get_elevation_usgs lat lon env rc).2 ≤ rc ∧
    ((∀ a, a < rc → isNon200 (env a) = true) →
      (get_elevation_usgs lat lon env rc).1 = none ∧
      requestCount (get_elevation_usgs lat lon env rc).2 = rc ∧
      ∀ t : ℚ, Event.sleep t ∉ (get_elevation_usgs lat lon env rc).2) := by
  have hlen : ((List.range rc).map (fun a => (a, env a))).length = rc := by
    simp
  constructor
  · have := fetchLoop_requestCount_le lat lon rc
      ((List.range rc).map (fun a => (a, env a)))
    rw [hlen] at this
    exact this
  · intro h
    have hall : ∀ p ∈ (List.range rc).map (fun a => (a, env a)),
        isNon200 p.2 = true := by
      intro p hp
      obtain ⟨a, ha, rfl⟩ := List.mem_map.mp hp
      exact h a (List.mem_range.mp ha)
    have := fetchLoop_non200 lat lon rc
      ((List.range rc).map (fun a => (a, env a))) hall
    rw [hlen] at this
    exact this

/-- Witness for C10 at a concrete environment of 404 responses. -/
theorem C10_attempt_bound_witness :
    requestCount (get_elevation_usgs 1 2
        (fun _ => Outcome.response 404 none) 2).2 ≤ 2 ∧
    (get_elevation_usgs 1 2 (fun _ => Outcome.response 404 none) 2).1 = none ∧
    requestCount (get_elevation_usgs 1 2
        (fun _ => Outcome.response 404 none) 2).2 = 2 ∧
    ∀ t : ℚ, Event.sleep t ∉
      (get_elevation_usgs 1 2 (fun _ => Outcome.response 404 none) 2).2 := by
  have h := C10_attempt_bound 1 2 2 (fun _ => Outcome.response 404 none)
  exact ⟨h.1, h.2 (fun a _ => rfl)⟩
